import Mathlib

/-!
# Verification of the travel-sample REST API (FastAPI + Couchbase quickstart)

Shallow embedding of the logic of `app/db.py` and the route handlers under
`app/routers/`. Python dicts that map field names to string values are embedded
as association lists; the external document store (Couchbase SDK) is embedded
as an explicit state/behaviour parameter, so that each gateway call is a pure
function of that behaviour.
-/

/-- A Python dict from string keys to string values (e.g. a `model_dump`
of a pydantic record, or the `fields` of a search row). -/
abbrev Dict := List (String × String)

/-! ## Full-text search requests (couchbase.search)

Sub-queries and search options as constructed by `app/db.py`. -/

/-- A full-text sub-query: `MatchQuery(value, field=f)` is the fuzzy/relevance
match, `TermQuery(value, field=f)` the exact-term match. -/
inductive SubQuery where
  | MatchQuery (value : String) (fld : String)
  | TermQuery (value : String) (fld : String)
deriving DecidableEq, Repr

/-- The top-level query of a search request: a single sub-query
(`search.SearchRequest.create(MatchQuery(...))`) or a
`ConjunctionQuery(*conjuncts)` combining sub-queries with logical AND. -/
inductive SearchQuery where
  | single (q : SubQuery)
  | ConjunctionQuery (conjuncts : List SubQuery)
deriving DecidableEq, Repr

/-- Embeds `SearchOptions(fields=..., limit=..., skip=...)`; options that are not
passed stay `none`. -/
structure SearchOptions where
  flds : List String
  limit : Option Int
  skip : Option Int
deriving DecidableEq, Repr

/-- A search request handed to `scope.search(index_name, request, options)`. -/
structure SearchRequest where
  indexName : String
  query : SearchQuery
  options : SearchOptions
deriving DecidableEq, Repr

/-- Python-level failure outcomes relevant to the embedded functions. -/
inductive PyError where
  | storeError (msg : String)
  | unboundLocal (varName : String)
  | attributeError (msg : String)
deriving DecidableEq, Repr

/-- The Python `str(e)` of such a failure, as interpolated by the route
handlers into `f"Unexpected error: ..."`. -/
def PyError.message : PyError → String
  | .storeError m => m
  | .unboundLocal v =>
      "cannot access local variable " ++ v ++ " where it is not associated with a value"
  | .attributeError m => m

/-- Behaviour of the external full-text-search backend: for a request it
either returns the rows (each row embedded as its `fields` dict) or raises. -/
abbrev SearchBackend := SearchRequest → Except String (List Dict)

/-- Observable outcome of one of the fts gateway methods: the requests that
were actually issued to the store, and the returned value or the Python
exception escaping the method. -/
structure FtsOutcome (α : Type) where
  issued : List SearchRequest
  result : Except PyError α
deriving Repr

namespace CouchbaseClient

/-- Embeds `self.index_name` in `CouchbaseClient.__init__`. -/
def index_name : String := "hotel_search"

/-- Embeds `match_query_terms` in `CouchbaseClient.filter` (db.py line 149). -/
def match_query_terms : List String := ["description", "name", "title"]

/-- Embeds `term_query_terms` in `CouchbaseClient.filter` (db.py line 157). -/
def term_query_terms : List String := ["city", "country", "state"]

/-- The `conjuncts` list built by `CouchbaseClient.filter` (db.py lines
147-160): a `MatchQuery(filter[t], field=t)` for each match term present in
the filter dict, followed by a `TermQuery(filter[t], field=t)` for each term
term present. -/
def buildConjuncts (filt : Dict) : List SubQuery :=
  (match_query_terms.filterMap fun t =>
      (filt.lookup t).map fun v => SubQuery.MatchQuery v t)
    ++ (term_query_terms.filterMap fun t =>
      (filt.lookup t).map fun v => SubQuery.TermQuery v t)

/-- Embeds `CouchbaseClient.filter` (db.py lines 144-178). If no conjuncts are
present it returns `[]` without touching the store; otherwise it issues one
search request with `SearchOptions(fields=["*"], limit=limit, skip=offset)`.
When the store call raises, the `except` block only prints, and the final
`return hotels` then references the never-assigned local `hotels`, raising
`UnboundLocalError`. -/
def filter (store : SearchBackend) (filt : Dict) (limit offset : Int) :
    FtsOutcome (List Dict) :=
  let conjuncts := buildConjuncts filt
  if conjuncts.isEmpty then
    { issued := [], result := .ok [] }
  else
    let req : SearchRequest :=
      { indexName := index_name
        query := .ConjunctionQuery conjuncts
        options := { flds := ["*"], limit := some limit, skip := some offset } }
    { issued := [req]
      result := match store req with
        | .ok rows => .ok rows
        | .error _ => .error (.unboundLocal "hotels") }

/-- Embeds `CouchbaseClient.search_by_name` (db.py lines 127-142): one match-query on
the `name` field, `SearchOptions(limit=50, fields=["name"])`, collecting
`row.fields.get("name", "")` for every row in store order. When the store
call raises, the `except` block only prints, and the final `return names`
references the never-assigned local `names`, raising `UnboundLocalError`. -/
def search_by_name (store : SearchBackend) (name : String) :
    FtsOutcome (List String) :=
  let req : SearchRequest :=
    { indexName := index_name
      query := .single (SubQuery.MatchQuery name "name")
      options := { flds := ["name"], limit := some 50, skip := none } }
  { issued := [req]
    result := match store req with
      | .ok rows => .ok (rows.map fun r => (r.lookup "name").getD "")
      | .error _ => .error (.unboundLocal "names") }

end CouchbaseClient

/-! ## Key-value store and SQL++ query gateway

The document store itself is external to the repository. Its key-value
contract is modelled from the spec (section 4.1): get raises not-found for an
absent key, insert raises already-exists for a present key, upsert always
succeeds, delete raises not-found for an absent key. An optional injected
`fault` makes every store operation raise an unexpected error, which is how
the route-layer catch-all branches are exercised. -/

/-- Exceptions raised by the store SDK for key-value operations. -/
inductive KVError where
  | DocumentNotFoundException
  | DocumentExistsException
  | other (msg : String)
deriving DecidableEq, Repr

/-- The Python `str(e)` of a store exception, as interpolated by the route
handlers into `f"Unexpected error: ..."`. -/
def KVError.message : KVError → String
  | .DocumentNotFoundException => "document not found"
  | .DocumentExistsException => "document exists"
  | .other m => m

/-- Modelled from the spec: the external store state seen through one scope.
`docs` maps a collection name and key to the stored document; `queryRows` is
the row set the external query engine returns for a SQL++ query; `fault`,
when set, makes every store call raise an unexpected exception with that
message. -/
structure Scope where
  docs : String → String → Option Dict
  queryRows : List Dict
  fault : Option String

/-- Point-update of the `docs` map. -/
def Scope.setDoc (s : Scope) (coll key : String) (d : Option Dict) : Scope :=
  { s with docs := fun c k => if c = coll ∧ k = key then d else s.docs c k }

namespace CouchbaseClient

/-- Embeds `CouchbaseClient.get_document` (db.py lines 105-107), with the store
semantics modelled from the spec: `getByKey -> record | NotFound`. -/
def get_document (s : Scope) (coll key : String) : Except KVError Dict :=
  match s.fault with
  | some m => .error (.other m)
  | none =>
    match s.docs coll key with
    | some d => .ok d
    | none => .error .DocumentNotFoundException

/-- Embeds `CouchbaseClient.insert_document` (db.py lines 109-111), with the store
semantics modelled from the spec: `insert -> ok | AlreadyExists`. -/
def insert_document (s : Scope) (coll key : String) (doc : Dict) :
    Except KVError Scope :=
  match s.fault with
  | some m => .error (.other m)
  | none =>
    match s.docs coll key with
    | some _ => .error .DocumentExistsException
    | none => .ok (s.setDoc coll key (some doc))

/-- Embeds `CouchbaseClient.delete_document` (db.py lines 113-115), with the store
semantics modelled from the spec: `delete -> ok | NotFound`. -/
def delete_document (s : Scope) (coll key : String) : Except KVError Scope :=
  match s.fault with
  | some m => .error (.other m)
  | none =>
    match s.docs coll key with
    | some _ => .ok (s.setDoc coll key none)
    | none => .error .DocumentNotFoundException

/-- Embeds `CouchbaseClient.upsert_document` (db.py lines 117-119), with the store
semantics modelled from the spec: `upsert -> ok`. -/
def upsert_document (s : Scope) (coll key : String) (doc : Dict) :
    Except KVError Scope :=
  match s.fault with
  | some m => .error (.other m)
  | none => .ok (s.setDoc coll key (some doc))

/-- A named parameter handed to the SQL++ query executor. -/
inductive QueryParam where
  | str (v : String)
  | strOpt (v : Option String)
  | int (v : Int)
deriving DecidableEq, Repr

/-- Embeds `CouchbaseClient.query` (db.py lines 121-125): the query string and named
parameters are handed verbatim to the external engine; the engine either
returns rows or raises. The row set of the external engine is modelled as
independent data of the scope. -/
def query (s : Scope) (_q : String) (_params : List (String × QueryParam)) :
    Except String (List Dict) :=
  match s.fault with
  | some m => .error m
  | none => .ok s.queryRows

end CouchbaseClient

/-! ## HTTP layer -/

/-- The body of an HTTP response produced by a route handler. -/
inductive ResponseBody where
  | jsonRows (rows : List Dict)
  | jsonDoc (d : Dict)
  | jsonNames (names : List String)
  | detail (msg : String)
  | internalServerError
  | empty
deriving DecidableEq, Repr

/-- An HTTP response: status code and body. -/
structure HttpResponse where
  status : Nat
  body : ResponseBody
deriving DecidableEq, Repr

/-- The raw outcome of a route-handler function body, before the framework
turns it into an HTTP response: the handler can return a row list, return a
Python pair `(string, int)` (a Flask idiom that is not a FastAPI response),
return an `HTTPException` object without raising it, or raise an
`HTTPException`. -/
inductive RawOutcome where
  | returned (rows : List Dict)
  | returnedPair (s : String) (code : Nat)
  | returnedExceptionValue (status : Nat) (detail : String)
  | raised (status : Nat) (detail : String)
deriving DecidableEq, Repr

/-- Modelled from the framework semantics (FastAPI): a raised `HTTPException`
becomes a response with its status and its detail as body; a returned row
list passes response-model validation and is sent with the route's declared
success status; a returned pair or a returned (not raised) `HTTPException`
object fails validation against the declared `response_model=list[...]`, and
the framework answers with a generic HTTP 500 whose body is the fixed text
`Internal Server Error` — the handler's message is not part of it. -/
def respond (successStatus : Nat) : RawOutcome → HttpResponse
  | .returned rows => { status := successStatus, body := .jsonRows rows }
  | .returnedPair _ _ => { status := 500, body := .internalServerError }
  | .returnedExceptionValue _ _ => { status := 500, body := .internalServerError }
  | .raised st d => { status := st, body := .detail d }

/-! ## Airline routes (app/routers/airline.py) -/

/-- Embeds `AIRLINE_COLLECTION` in airline.py. -/
def AIRLINE_COLLECTION : String := "airline"

/-- Python truthiness of the optional `country` query parameter: `None` and
the empty string are falsy. -/
def pyTruthy : Option String → Bool
  | none => false
  | some s => !s.isEmpty

/-- The SQL++ template of `get_airlines_list` when a country is given
(airline.py lines 67-78; whitespace normalized). -/
def airlines_list_query_with_country : String :=
  "SELECT airline.callsign, airline.country, airline.iata, airline.icao, airline.name FROM airline as airline WHERE airline.country=$country ORDER BY airline.name LIMIT $limit OFFSET $offset;"

/-- The SQL++ template of `get_airlines_list` when no country is given
(airline.py lines 81-91; whitespace normalized). -/
def airlines_list_query_all : String :=
  "SELECT airline.callsign, airline.country, airline.iata, airline.icao, airline.name FROM airline as airline ORDER BY airline.name LIMIT $limit OFFSET $offset;"

/-- The query string chosen by `get_airlines_list` (`if country:` picks the
template with the WHERE clause). -/
def get_airlines_list_query (country : Option String) : String :=
  if pyTruthy country then airlines_list_query_with_country
  else airlines_list_query_all

/-- The named parameters `get_airlines_list` hands to `db.query`
(airline.py line 94). -/
def get_airlines_list_params (country : Option String) (limit offset : Int) :
    List (String × CouchbaseClient.QueryParam) :=
  [("country", .strOpt country), ("limit", .int limit), ("offset", .int offset)]

/-- Embeds `get_airlines_list` (airline.py lines 43-98). On success the handler
returns the rows; on any exception it executes
`return f"Unexpected error: ...", 500`, i.e. it returns a Python pair
instead of raising an `HTTPException`. -/
def get_airlines_list (s : Scope) (country : Option String) (limit offset : Int) :
    RawOutcome :=
  match CouchbaseClient.query s (get_airlines_list_query country)
      (get_airlines_list_params country limit offset) with
  | .ok rows => .returned rows
  | .error m => .returnedPair ("Unexpected error: " ++ m) 500

/-- The SQL++ template of `get_airlines_to_airport` (airline.py lines
135-151; whitespace normalized). It is a single constant string. -/
def airlines_to_airport_query : String :=
  "SELECT air.callsign, air.country, air.iata, air.icao, air.name FROM ( SELECT DISTINCT META(airline).id AS airlineId FROM route JOIN airline ON route.airlineid = META(airline).id WHERE route.destinationairport = $airport ) AS subquery JOIN airline AS air ON META(air).id = subquery.airlineId ORDER BY air.name LIMIT $limit OFFSET $offset;"

/-- Embeds `get_airlines_to_airport` (airline.py lines 111-156). On success the
handler returns the rows; on any exception it executes
`return HTTPException(status_code=500, ...)` — it returns the exception
object instead of raising it. -/
def get_airlines_to_airport (s : Scope) (airport : String) (limit offset : Int) :
    RawOutcome :=
  match CouchbaseClient.query s airlines_to_airport_query
      [("airport", .str airport), ("limit", .int limit), ("offset", .int offset)] with
  | .ok rows => .returned rows
  | .error m => .returnedExceptionValue 500 ("Unexpected error: " ++ m)

/-- Embeds `read_airline` (airline.py lines 172-191): 200 with the document, 404 on
`DocumentNotFoundException`, 500 with the message otherwise. -/
def read_airline (s : Scope) (id : String) : HttpResponse :=
  match CouchbaseClient.get_document s AIRLINE_COLLECTION id with
  | .ok d => { status := 200, body := .jsonDoc d }
  | .error .DocumentNotFoundException =>
      { status := 404, body := .detail "Airline not found" }
  | .error e => { status := 500, body := .detail ("Unexpected error: " ++ e.message) }

/-- Embeds `create_airline` (airline.py lines 208-229): 201 echoing the body, 409 on
`DocumentExistsException`, 500 with the message otherwise. -/
def create_airline (s : Scope) (id : String) (airline : Dict) :
    HttpResponse × Scope :=
  match CouchbaseClient.insert_document s AIRLINE_COLLECTION id airline with
  | .ok s2 => ({ status := 201, body := .jsonDoc airline }, s2)
  | .error .DocumentExistsException =>
      ({ status := 409, body := .detail "Airline already exists" }, s)
  | .error e =>
      ({ status := 500, body := .detail ("Unexpected error: " ++ e.message) }, s)

/-- Embeds `update_airline` (airline.py lines 245-264): upsert, 200 echoing the
body on success, 500 with the message otherwise. -/
def update_airline (s : Scope) (id : String) (airline : Dict) :
    HttpResponse × Scope :=
  match CouchbaseClient.upsert_document s AIRLINE_COLLECTION id airline with
  | .ok s2 => ({ status := 200, body := .jsonDoc airline }, s2)
  | .error e =>
      ({ status := 500, body := .detail ("Unexpected error: " ++ e.message) }, s)

/-- Embeds `delete_airline` (airline.py lines 280-299): 204 on success, 404 on
`DocumentNotFoundException`, 500 with the message otherwise. -/
def delete_airline (s : Scope) (id : String) : HttpResponse × Scope :=
  match CouchbaseClient.delete_document s AIRLINE_COLLECTION id with
  | .ok s2 => ({ status := 204, body := .empty }, s2)
  | .error .DocumentNotFoundException =>
      ({ status := 404, body := .detail "Airline not found" }, s)
  | .error e =>
      ({ status := 500, body := .detail ("Unexpected error: " ++ e.message) }, s)

/-! ## Airport routes (app/routers/airport.py) -/

/-- Embeds `AIRPORT_COLLECTION` in airport.py. -/
def AIRPORT_COLLECTION : String := "airport"

/-- The SQL++ template of `get_airports_list` when a country is given
(airport.py lines 83-96; whitespace normalized). -/
def airports_list_query_with_country : String :=
  "SELECT airport.airportname, airport.city, airport.country, airport.faa, airport.geo, airport.icao, airport.tz FROM airport AS airport WHERE airport.country = $country ORDER BY airport.airportname LIMIT $limit OFFSET $offset;"

/-- The SQL++ template of `get_airports_list` when no country is given
(airport.py lines 98-110; whitespace normalized). -/
def airports_list_query_all : String :=
  "SELECT airport.airportname, airport.city, airport.country, airport.faa, airport.geo, airport.icao, airport.tz FROM airport AS airport ORDER BY airport.airportname LIMIT $limit OFFSET $offset;"

/-- The query string chosen by `get_airports_list` (`if country:` picks the
template with the WHERE clause). -/
def get_airports_list_query (country : Option String) : String :=
  if pyTruthy country then airports_list_query_with_country
  else airports_list_query_all

/-- Embeds `get_airports_list` (airport.py lines 59-117). On success the handler
returns the rows; on any exception it executes
`return f"Unexpected error: ...", 500`, returning a Python pair instead of
raising an `HTTPException`. -/
def get_airports_list (s : Scope) (country : Option String) (limit offset : Int) :
    RawOutcome :=
  match CouchbaseClient.query s (get_airports_list_query country)
      [("country", .strOpt country), ("limit", .int limit), ("offset", .int offset)] with
  | .ok rows => .returned rows
  | .error m => .returnedPair ("Unexpected error: " ++ m) 500

/-- Embeds `read_airport` (airport.py lines 193-210). -/
def read_airport (s : Scope) (id : String) : HttpResponse :=
  match CouchbaseClient.get_document s AIRPORT_COLLECTION id with
  | .ok d => { status := 200, body := .jsonDoc d }
  | .error .DocumentNotFoundException =>
      { status := 404, body := .detail "Airport not found" }
  | .error e => { status := 500, body := .detail ("Unexpected error: " ++ e.message) }

/-- Embeds `create_airport` (airport.py lines 227-246). -/
def create_airport (s : Scope) (id : String) (airport : Dict) :
    HttpResponse × Scope :=
  match CouchbaseClient.insert_document s AIRPORT_COLLECTION id airport with
  | .ok s2 => ({ status := 201, body := .jsonDoc airport }, s2)
  | .error .DocumentExistsException =>
      ({ status := 409, body := .detail "airport already exists" }, s)
  | .error e =>
      ({ status := 500, body := .detail ("Unexpected error: " ++ e.message) }, s)

/-- Embeds `update_airport` (airport.py lines 262-279). -/
def update_airport (s : Scope) (id : String) (airport : Dict) :
    HttpResponse × Scope :=
  match CouchbaseClient.upsert_document s AIRPORT_COLLECTION id airport with
  | .ok s2 => ({ status := 200, body := .jsonDoc airport }, s2)
  | .error e =>
      ({ status := 500, body := .detail ("Unexpected error: " ++ e.message) }, s)

/-- Embeds `delete_airport` (airport.py lines 295-312). -/
def delete_airport (s : Scope) (id : String) : HttpResponse × Scope :=
  match CouchbaseClient.delete_document s AIRPORT_COLLECTION id with
  | .ok s2 => ({ status := 204, body := .empty }, s2)
  | .error .DocumentNotFoundException =>
      ({ status := 404, body := .detail "Airport not found" }, s)
  | .error e =>
      ({ status := 500, body := .detail ("Unexpected error: " ++ e.message) }, s)

/-! ## Route routes (app/routers/route.py) -/

/-- Embeds `ROUTE_COLLECTION` in route.py. -/
def ROUTE_COLLECTION : String := "route"

/-- Embeds `read_route` (route.py lines 62-79). -/
def read_route (s : Scope) (id : String) : HttpResponse :=
  match CouchbaseClient.get_document s ROUTE_COLLECTION id with
  | .ok d => { status := 200, body := .jsonDoc d }
  | .error .DocumentNotFoundException =>
      { status := 404, body := .detail "Route not found" }
  | .error e => { status := 500, body := .detail ("Unexpected error: " ++ e.message) }

/-- Embeds `create_route` (route.py lines 96-115). -/
def create_route (s : Scope) (id : String) (route : Dict) :
    HttpResponse × Scope :=
  match CouchbaseClient.insert_document s ROUTE_COLLECTION id route with
  | .ok s2 => ({ status := 201, body := .jsonDoc route }, s2)
  | .error .DocumentExistsException =>
      ({ status := 409, body := .detail "route already exists" }, s)
  | .error e =>
      ({ status := 500, body := .detail ("Unexpected error: " ++ e.message) }, s)

/-- Embeds `update_route` (route.py lines 131-148). -/
def update_route (s : Scope) (id : String) (route : Dict) :
    HttpResponse × Scope :=
  match CouchbaseClient.upsert_document s ROUTE_COLLECTION id route with
  | .ok s2 => ({ status := 200, body := .jsonDoc route }, s2)
  | .error e =>
      ({ status := 500, body := .detail ("Unexpected error: " ++ e.message) }, s)

/-- Embeds `delete_route` (route.py lines 164-181). -/
def delete_route (s : Scope) (id : String) : HttpResponse × Scope :=
  match CouchbaseClient.delete_document s ROUTE_COLLECTION id with
  | .ok s2 => ({ status := 204, body := .empty }, s2)
  | .error .DocumentNotFoundException =>
      ({ status := 404, body := .detail "Route not found" }, s)
  | .error e =>
      ({ status := 500, body := .detail ("Unexpected error: " ++ e.message) }, s)

/-! ## Hotel routes (app/routers/hotel.py) -/

/-- The pydantic `Hotel` model (hotel.py lines 21-37): all six fields
optional. -/
structure Hotel where
  city : Option String
  country : Option String
  description : Option String
  name : Option String
  state : Option String
  title : Option String
deriving DecidableEq, Repr

/-- Embeds `hotel.model_dump(exclude_none=True)`: the dict of the fields that are
set, in pydantic declaration order. -/
def Hotel.model_dump_exclude_none (h : Hotel) : Dict :=
  (h.city.map fun v => ("city", v)).toList
    ++ (h.country.map fun v => ("country", v)).toList
    ++ (h.description.map fun v => ("description", v)).toList
    ++ (h.name.map fun v => ("name", v)).toList
    ++ (h.state.map fun v => ("state", v)).toList
    ++ (h.title.map fun v => ("title", v)).toList

/-- The `Hotel` with no field set — the empty filter object. -/
def Hotel.emptyFilter : Hotel :=
  { city := none, country := none, description := none, name := none,
    state := none, title := none }

/-- The Python message of the `AttributeError` raised by
`None.model_dump(...)` when the optional request body is absent. -/
def noneTypeModelDumpMsg : String :=
  "NoneType object has no attribute model_dump"

/-- Default of the `limit` query parameter of POST /api/v1/hotel/filter
(hotel.py line 87): `Query(10, ...)`. An absent parameter takes the default. -/
def hotel_filter_limit (limitParam : Option Int) : Int := limitParam.getD 10

/-- Default of the `offset` query parameter of POST /api/v1/hotel/filter
(hotel.py line 88): `Query(0, ...)`. An absent parameter takes the default. -/
def hotel_filter_offset (offsetParam : Option Int) : Int := offsetParam.getD 0

/-- Embeds `hotel_filter` (hotel.py lines 85-98). The body parameter is optional
with default `None`; when it is absent, `hotel.model_dump(...)` raises
`AttributeError`, which the catch-all turns into an HTTP 500. Otherwise the
handler passes the dumped filter dict and the (defaulted) pagination values
to `CouchbaseClient.filter` and returns its rows with 200, or 500 via the
catch-all when that call raises. -/
def hotel_filter (store : SearchBackend) (hotel : Option Hotel)
    (limitParam offsetParam : Option Int) : HttpResponse :=
  match hotel with
  | none =>
      { status := 500, body := .detail ("Unexpected error: " ++ noneTypeModelDumpMsg) }
  | some h =>
      match (CouchbaseClient.filter store h.model_dump_exclude_none
          (hotel_filter_limit limitParam) (hotel_filter_offset offsetParam)).result with
      | .ok rows => { status := 200, body := .jsonRows rows }
      | .error e =>
          { status := 500, body := .detail ("Unexpected error: " ++ e.message) }

/-- Embeds `hotel_autocomplete` (hotel.py lines 53-69): wraps
`CouchbaseClient.search_by_name`; 200 with the names on success, 500 via the
catch-all when that call raises. -/
def hotel_autocomplete (store : SearchBackend) (name : String) : HttpResponse :=
  match (CouchbaseClient.search_by_name store name).result with
  | .ok names => { status := 200, body := .jsonNames names }
  | .error e => { status := 500, body := .detail ("Unexpected error: " ++ e.message) }

/-! ## Startup: `CouchbaseClient.connect` and `get_db` (db.py lines 33-68 and
181-194)

The external cluster is modelled by a behaviour: either the connection
succeeds (and the bucket reports its scope names), or `Cluster(...)` /
`wait_until_ready(...)` raises a `CouchbaseException`. The logging of
`create_search_index` is omitted: that method catches every exception and
affects only the log. -/

/-- Behaviour of the external cluster during `connect`. -/
inductive ClusterBehavior where
  | ok (scopeNames : List String)
  | couchbaseError (msg : String)
deriving DecidableEq, Repr

/-- Log lines plus the result of client construction: `.ok` when `__init__`
returns, `.error` when an exception escapes it. -/
structure ConnectTrace where
  logs : List String
  result : Except PyError Unit
deriving Repr

/-- Embeds `CouchbaseClient.check_scope_exists` (db.py lines 70-80): with no bucket
(connection failed), `self.bucket.collections()` raises `AttributeError`,
which the inner `except Exception` catches, printing an error and returning
`None`; with a bucket it reports whether the inventory scope is present. -/
def check_scope_exists (bucket : Option (List String)) :
    List String × Option Bool :=
  match bucket with
  | none => (["Error fetching scopes in cluster. Ensure that travel-sample bucket exists."], none)
  | some scopes => ([], some (scopes.contains "inventory"))

/-- Embeds `CouchbaseClient.connect` (db.py lines 33-68). A `CouchbaseException`
from the connection attempt is caught and logged as a warning, and
`self.bucket` stays `None`; the method then unconditionally evaluates
`self.bucket.scope(self.scope_name)` (line 66), so the `AttributeError` on
the `None` bucket escapes the constructor. -/
def connect (env : ClusterBehavior) : ConnectTrace :=
  match env with
  | .ok scopes =>
      let chk := check_scope_exists (some scopes)
      let scopeWarn :=
        if chk.2 = some true then []
        else ["WARNING: Inventory scope does not exist in the bucket."]
      { logs := ["connecting to db"] ++ chk.1 ++ scopeWarn, result := .ok () }
  | .couchbaseError m =>
      let chk := check_scope_exists none
      { logs := ["connecting to db",
                 "Could not connect to cluster. Error: " ++ m,
                 "WARNING: Ensure that you have the travel-sample bucket loaded in the cluster."]
                ++ chk.1
                ++ ["WARNING: Inventory scope does not exist in the bucket."],
        result := .error (.attributeError "NoneType object has no attribute scope") }

/-- Embeds `get_db` (db.py lines 181-194): reads the three environment values,
prints a warning for each missing one, then constructs the client (whose
`__init__` calls `connect`). -/
def get_db (conn_str username password : Option String) (env : ClusterBehavior) :
    ConnectTrace :=
  let w1 := if conn_str.isNone
    then ["WARNING: DB_CONN_STR environment variable not set"] else []
  let w2 := if username.isNone
    then ["WARNING: DB_USERNAME environment variable not set"] else []
  let w3 := if password.isNone
    then ["WARNING: DB_PASSWORD environment variable not set"] else []
  let t := connect env
  { logs := w1 ++ w2 ++ w3 ++ t.logs, result := t.result }


/-! ## Helper lemmas -/

/-- The requests issued by `CouchbaseClient.filter`: none when no conjunct is
present, otherwise exactly one conjunction request. -/
theorem CouchbaseClient.filter_issued (store : SearchBackend) (filt : Dict)
    (limit offset : Int) :
    (CouchbaseClient.filter store filt limit offset).issued
      = if (CouchbaseClient.buildConjuncts filt).isEmpty then []
        else [{ indexName := CouchbaseClient.index_name
                query := .ConjunctionQuery (CouchbaseClient.buildConjuncts filt)
                options := { flds := ["*"], limit := some limit, skip := some offset } }] := by
  by_cases hc : (CouchbaseClient.buildConjuncts filt).isEmpty <;>
    simp [CouchbaseClient.filter, hc]

/-! ## Claims -/

/-- C1: for every filter object, the builder maps each present field among
description/name/title to a match sub-query on that field and each present
field among city/country/state to a term sub-query on that field, combines
all sub-queries with a conjunction, and in particular a city-only filter
yields exactly one term sub-query on city, and city+name a two-element
conjunction. -/
theorem filter_builder_conjunction_spec (filt : Dict) :
    (∀ v t, SubQuery.MatchQuery v t ∈ CouchbaseClient.buildConjuncts filt ↔
      (t ∈ CouchbaseClient.match_query_terms ∧ filt.lookup t = some v))
    ∧ (∀ v t, SubQuery.TermQuery v t ∈ CouchbaseClient.buildConjuncts filt ↔
      (t ∈ CouchbaseClient.term_query_terms ∧ filt.lookup t = some v))
    ∧ (∀ store limit offset req,
        req ∈ (CouchbaseClient.filter store filt limit offset).issued →
        req.query = .ConjunctionQuery (CouchbaseClient.buildConjuncts filt))
    ∧ CouchbaseClient.buildConjuncts [("city", "Paris")]
        = [SubQuery.TermQuery "Paris" "city"]
    ∧ CouchbaseClient.buildConjuncts [("city", "Paris"), ("name", "Inn")]
        = [SubQuery.MatchQuery "Inn" "name", SubQuery.TermQuery "Paris" "city"] := by
  refine ⟨?_, ?_, ?_, by decide, by decide⟩
  · intro v t
    simp only [CouchbaseClient.buildConjuncts, List.mem_append, List.mem_filterMap,
      Option.map_eq_some', SubQuery.MatchQuery.injEq, reduceCtorEq]
    constructor
    · rintro (⟨a, ha, x, hx, hxv, rfl⟩ | ⟨a, ha, x, hx, h⟩)
      · exact ⟨ha, hxv ▸ hx⟩
      · exact absurd h (by simp)
    · rintro ⟨ht, hv⟩
      exact Or.inl ⟨t, ht, v, hv, rfl, rfl⟩
  · intro v t
    simp only [CouchbaseClient.buildConjuncts, List.mem_append, List.mem_filterMap,
      Option.map_eq_some', SubQuery.TermQuery.injEq, reduceCtorEq]
    constructor
    · rintro (⟨a, ha, x, hx, h⟩ | ⟨a, ha, x, hx, hxv, rfl⟩)
      · exact absurd h (by simp)
      · exact ⟨ha, hxv ▸ hx⟩
    · rintro ⟨ht, hv⟩
      exact Or.inr ⟨t, ht, v, hv, rfl, rfl⟩
  · intro store limit offset req hreq
    rw [CouchbaseClient.filter_issued] at hreq
    by_cases hc : (CouchbaseClient.buildConjuncts filt).isEmpty <;>
      simp [hc] at hreq
    rw [hreq]

/-- Witness for C1 at the concrete two-field filter. -/
theorem filter_builder_conjunction_spec_witness :
    SubQuery.MatchQuery "Inn" "name"
      ∈ CouchbaseClient.buildConjuncts [("city", "Paris"), ("name", "Inn")] :=
  ((filter_builder_conjunction_spec [("city", "Paris"), ("name", "Inn")]).1
    "Inn" "name").2 (by decide)

/-- C2: a filter object with none of the six recognized fields makes the
filter operation return an empty list without issuing any search request. -/
theorem filter_no_fields_no_query (store : SearchBackend) (filt : Dict)
    (limit offset : Int)
    (h : ∀ t, t ∈ CouchbaseClient.match_query_terms ++ CouchbaseClient.term_query_terms →
        filt.lookup t = none) :
    (CouchbaseClient.filter store filt limit offset).issued = []
    ∧ (CouchbaseClient.filter store filt limit offset).result = .ok [] := by
  have hb : CouchbaseClient.buildConjuncts filt = [] := by
    have h1 := h "description" (by decide)
    have h2 := h "name" (by decide)
    have h3 := h "title" (by decide)
    have h4 := h "city" (by decide)
    have h5 := h "country" (by decide)
    have h6 := h "state" (by decide)
    simp [CouchbaseClient.buildConjuncts, CouchbaseClient.match_query_terms,
      CouchbaseClient.term_query_terms, h1, h2, h3, h4, h5, h6]
  constructor <;> simp [CouchbaseClient.filter, hb]

/-- Witness for C2 at the empty filter dict. -/
theorem filter_no_fields_no_query_witness :
    (CouchbaseClient.filter (fun _ => .ok [[("name", "x")]]) [] 10 0).issued = []
    ∧ (CouchbaseClient.filter (fun _ => .ok [[("name", "x")]]) [] 10 0).result
        = .ok [] :=
  filter_no_fields_no_query (fun _ => .ok [[("name", "x")]]) [] 10 0 (by decide)

/-- C3: the filter builder places the caller-supplied limit and offset
verbatim into the search request's limit and skip options — no clamping, for
any integers — and the only defaults are the HTTP-layer defaults limit=10
and offset=0 of POST /api/v1/hotel/filter. -/
theorem filter_pagination_verbatim (store : SearchBackend) (filt : Dict)
    (limit offset : Int) (h : CouchbaseClient.buildConjuncts filt ≠ []) :
    (CouchbaseClient.filter store filt limit offset).issued
      = [{ indexName := CouchbaseClient.index_name
           query := .ConjunctionQuery (CouchbaseClient.buildConjuncts filt)
           options := { flds := ["*"], limit := some limit, skip := some offset } }]
    ∧ (∀ l : Int, hotel_filter_limit (some l) = l)
    ∧ (∀ o : Int, hotel_filter_offset (some o) = o)
    ∧ hotel_filter_limit none = 10
    ∧ hotel_filter_offset none = 0 := by
  refine ⟨?_, fun _ => rfl, fun _ => rfl, rfl, rfl⟩
  rw [CouchbaseClient.filter_issued]
  simp [List.isEmpty_iff, h]

/-- Witness for C3 at a one-field filter with negative limit and offset,
showing no clamping of either value. -/
theorem filter_pagination_verbatim_witness :
    (CouchbaseClient.filter (fun _ => .ok []) [("city", "Paris")] (-5) (-7)).issued
      = [{ indexName := CouchbaseClient.index_name
           query := .ConjunctionQuery [SubQuery.TermQuery "Paris" "city"]
           options := { flds := ["*"], limit := some (-5), skip := some (-7) } }] :=
  (filter_pagination_verbatim (fun _ => .ok []) [("city", "Paris")] (-5) (-7)
    (by decide)).1

/-- C4: autocomplete issues a single match-query on the name field with fixed
limit 50 requesting only the name field, and on success returns the name of
each hit in store order, without deduplication. -/
theorem autocomplete_request_spec (store : SearchBackend) (name : String) :
    (CouchbaseClient.search_by_name store name).issued
      = [{ indexName := CouchbaseClient.index_name
           query := .single (SubQuery.MatchQuery name "name")
           options := { flds := ["name"], limit := some 50, skip := none } }]
    ∧ (∀ rows,
        store { indexName := CouchbaseClient.index_name
                query := .single (SubQuery.MatchQuery name "name")
                options := { flds := ["name"], limit := some 50, skip := none } }
          = .ok rows →
        (CouchbaseClient.search_by_name store name).result
          = .ok (rows.map fun r => (r.lookup "name").getD "")) := by
  refine ⟨rfl, fun rows hrows => ?_⟩
  simp [CouchbaseClient.search_by_name, hrows]

/-- Witness for C4 on a store returning two hits with the same name: both
names come back, duplicated, in store order. -/
theorem autocomplete_request_spec_witness :
    (CouchbaseClient.search_by_name
        (fun _ => .ok [[("name", "Seal View")], [("name", "Seal View")]])
        "Seal View").result
      = .ok ["Seal View", "Seal View"] :=
  (autocomplete_request_spec
      (fun _ => .ok [[("name", "Seal View")], [("name", "Seal View")]])
      "Seal View").2 _ rfl

/-- C5 (code bug): on a gateway failure that is neither not-found nor
already-exists, the key-value handlers do raise HTTP 500 with the message
embedded, but `get_airlines_list`, `get_airlines_to_airport` and
`get_airports_list` instead return a Python pair or an unraised
`HTTPException` object; the framework turns that invalid return value into a
generic 500 whose body is the fixed text Internal Server Error, so the error
message is not embedded in the response body. -/
theorem list_endpoints_error_not_embedded (s : Scope) (m : String)
    (hf : s.fault = some m) (country : Option String) (airport : String)
    (limit offset : Int) (id : String) :
    get_airlines_list s country limit offset
      = .returnedPair ("Unexpected error: " ++ m) 500
    ∧ respond 200 (get_airlines_list s country limit offset)
        = { status := 500, body := .internalServerError }
    ∧ get_airlines_to_airport s airport limit offset
        = .returnedExceptionValue 500 ("Unexpected error: " ++ m)
    ∧ respond 200 (get_airlines_to_airport s airport limit offset)
        = { status := 500, body := .internalServerError }
    ∧ get_airports_list s country limit offset
        = .returnedPair ("Unexpected error: " ++ m) 500
    ∧ read_airline s id
        = { status := 500, body := .detail ("Unexpected error: " ++ m) } := by
  refine ⟨?_, ?_, ?_, ?_, ?_, ?_⟩ <;>
    simp [get_airlines_list, get_airlines_to_airport, get_airports_list,
      read_airline, respond, CouchbaseClient.query, CouchbaseClient.get_document,
      KVError.message, hf]

/-- Witness for C5 on a concrete faulted store. -/
theorem list_endpoints_error_not_embedded_witness :
    respond 200 (get_airlines_list
        { docs := fun _ _ => none, queryRows := [], fault := some "boom" }
        none 10 0)
      = { status := 500, body := .internalServerError } :=
  (list_endpoints_error_not_embedded
    { docs := fun _ _ => none, queryRows := [], fault := some "boom" }
    "boom" rfl none "SFO" 10 0 "a1").2.1

/-- C6 (code bug): when the initial connection raises a CouchbaseException,
`get_db` logs the missing-environment warnings and the connection warning,
but client construction does not return a usable object: `connect` goes on to
evaluate `self.bucket.scope(...)` on the `None` bucket and the resulting
`AttributeError` escapes the constructor — a hard startup failure. -/
theorem connect_failure_raises (m : String) (cs u p : Option String) :
    ("WARNING: DB_CONN_STR environment variable not set"
        ∈ (get_db none u p (.couchbaseError m)).logs)
    ∧ (("Could not connect to cluster. Error: " ++ m)
        ∈ (get_db cs u p (.couchbaseError m)).logs)
    ∧ (get_db cs u p (.couchbaseError m)).result
        = .error (.attributeError "NoneType object has no attribute scope") := by
  refine ⟨?_, ?_, rfl⟩ <;>
    simp [get_db, connect, check_scope_exists]

/-- C7: in both full-text search gateway methods, a store failure is
swallowed by the exception handler and the final return statement then
references the never-assigned accumulator (`names` respectively `hotels`),
raising UnboundLocalError rather than propagating the store error. -/
theorem fts_error_swallowed_unbound_local (store : SearchBackend)
    (name : String) (filt : Dict) (limit offset : Int) (m : String)
    (hstore : ∀ req, store req = .error m)
    (hc : CouchbaseClient.buildConjuncts filt ≠ []) :
    (CouchbaseClient.search_by_name store name).result
      = .error (.unboundLocal "names")
    ∧ (CouchbaseClient.filter store filt limit offset).result
      = .error (.unboundLocal "hotels")
    ∧ (CouchbaseClient.search_by_name store name).result
      ≠ .error (.storeError m)
    ∧ (CouchbaseClient.filter store filt limit offset).result
      ≠ .error (.storeError m) := by
  have h1 : (CouchbaseClient.search_by_name store name).result
      = .error (.unboundLocal "names") := by
    simp [CouchbaseClient.search_by_name, hstore]
  have h2 : (CouchbaseClient.filter store filt limit offset).result
      = .error (.unboundLocal "hotels") := by
    simp [CouchbaseClient.filter, List.isEmpty_iff, hc, hstore]
  refine ⟨h1, h2, ?_, ?_⟩ <;> simp [h1, h2]

/-- Witness for C7 on a store that always raises. -/
theorem fts_error_swallowed_unbound_local_witness :
    (CouchbaseClient.search_by_name (fun _ => .error "boom") "Inn").result
      = .error (.unboundLocal "names")
    ∧ (CouchbaseClient.filter (fun _ => .error "boom") [("city", "Paris")] 10 0).result
      = .error (.unboundLocal "hotels") := by
  have h := fts_error_swallowed_unbound_local (fun _ => .error "boom") "Inn"
    [("city", "Paris")] 10 0 "boom" (fun _ => rfl) (by decide)
  exact ⟨h.1, h.2.1⟩

/-- C8: for every entity key-value endpoint, a read or delete of an absent
key yields 404, a create of a present key yields 409, a successful create
yields 201, a successful delete yields 204, and a successful read or update
yields 200. -/
theorem kv_endpoint_status_codes (s : Scope) (id : String) (doc : Dict)
    (hf : s.fault = none) :
    (s.docs AIRLINE_COLLECTION id = none →
      read_airline s id = { status := 404, body := .detail "Airline not found" })
    ∧ (∀ d, s.docs AIRLINE_COLLECTION id = some d →
      read_airline s id = { status := 200, body := .jsonDoc d })
    ∧ (∀ d, s.docs AIRLINE_COLLECTION id = some d →
      (create_airline s id doc).1
        = { status := 409, body := .detail "Airline already exists" })
    ∧ (s.docs AIRLINE_COLLECTION id = none →
      (create_airline s id doc).1 = { status := 201, body := .jsonDoc doc })
    ∧ (update_airline s id doc).1 = { status := 200, body := .jsonDoc doc }
    ∧ (∀ d, s.docs AIRLINE_COLLECTION id = some d →
      (delete_airline s id).1 = { status := 204, body := .empty })
    ∧ (s.docs AIRLINE_COLLECTION id = none →
      (delete_airline s id).1 = { status := 404, body := .detail "Airline not found" })
    ∧ (s.docs AIRPORT_COLLECTION id = none →
      read_airport s id = { status := 404, body := .detail "Airport not found" })
    ∧ (∀ d, s.docs AIRPORT_COLLECTION id = some d →
      read_airport s id = { status := 200, body := .jsonDoc d })
    ∧ (∀ d, s.docs AIRPORT_COLLECTION id = some d →
      (create_airport s id doc).1
        = { status := 409, body := .detail "airport already exists" })
    ∧ (s.docs AIRPORT_COLLECTION id = none →
      (create_airport s id doc).1 = { status := 201, body := .jsonDoc doc })
    ∧ (update_airport s id doc).1 = { status := 200, body := .jsonDoc doc }
    ∧ (∀ d, s.docs AIRPORT_COLLECTION id = some d →
      (delete_airport s id).1 = { status := 204, body := .empty })
    ∧ (s.docs AIRPORT_COLLECTION id = none →
      (delete_airport s id).1 = { status := 404, body := .detail "Airport not found" })
    ∧ (s.docs ROUTE_COLLECTION id = none →
      read_route s id = { status := 404, body := .detail "Route not found" })
    ∧ (∀ d, s.docs ROUTE_COLLECTION id = some d →
      read_route s id = { status := 200, body := .jsonDoc d })
    ∧ (∀ d, s.docs ROUTE_COLLECTION id = some d →
      (create_route s id doc).1
        = { status := 409, body := .detail "route already exists" })
    ∧ (s.docs ROUTE_COLLECTION id = none →
      (create_route s id doc).1 = { status := 201, body := .jsonDoc doc })
    ∧ (update_route s id doc).1 = { status := 200, body := .jsonDoc doc }
    ∧ (∀ d, s.docs ROUTE_COLLECTION id = some d →
      (delete_route s id).1 = { status := 204, body := .empty })
    ∧ (s.docs ROUTE_COLLECTION id = none →
      (delete_route s id).1 = { status := 404, body := .detail "Route not found" }) := by
  refine ⟨?_, ?_, ?_, ?_, ?_, ?_, ?_, ?_, ?_, ?_, ?_, ?_, ?_, ?_, ?_, ?_, ?_,
    ?_, ?_, ?_, ?_⟩ <;> intros <;>
    simp_all [read_airline, create_airline, update_airline, delete_airline,
      read_airport, create_airport, update_airport, delete_airport,
      read_route, create_route, update_route, delete_route,
      CouchbaseClient.get_document, CouchbaseClient.insert_document,
      CouchbaseClient.upsert_document, CouchbaseClient.delete_document]

/-- A concrete store with one airline document, used by the C8 witness. -/
def kvWitnessScope : Scope :=
  { docs := fun c k => if c = "airline" ∧ k = "a1" then some [("name", "X")] else none
    queryRows := []
    fault := none }

/-- Witness for C8 on the concrete store: a missing key reads as 404 and a
second create of a present key gives 409. -/
theorem kv_endpoint_status_codes_witness :
    read_airline kvWitnessScope "missing"
      = { status := 404, body := .detail "Airline not found" }
    ∧ (create_airline kvWitnessScope "a1" []).1
      = { status := 409, body := .detail "Airline already exists" } := by
  refine ⟨(kv_endpoint_status_codes kvWitnessScope "missing" [] rfl).1 ?_,
    (kv_endpoint_status_codes kvWitnessScope "a1" [] rfl).2.2.1 [("name", "X")] ?_⟩ <;>
    decide

/-- C9: the list endpoints choose among a fixed finite set of constant SQL++
templates, the choice depending only on the truthiness of the optional
country value; any two non-empty country values give the identical query
string, and the caller's value travels only as the named parameter. -/
theorem list_query_static_templates :
    (∀ c, get_airlines_list_query c = airlines_list_query_with_country
        ∨ get_airlines_list_query c = airlines_list_query_all)
    ∧ (∀ c, get_airports_list_query c = airports_list_query_with_country
        ∨ get_airports_list_query c = airports_list_query_all)
    ∧ (∀ c1 c2, pyTruthy c1 = pyTruthy c2 →
        get_airlines_list_query c1 = get_airlines_list_query c2
        ∧ get_airports_list_query c1 = get_airports_list_query c2)
    ∧ (∀ v1 v2 : String, v1 ≠ "" → v2 ≠ "" →
        get_airlines_list_query (some v1) = get_airlines_list_query (some v2)
        ∧ get_airports_list_query (some v1) = get_airports_list_query (some v2))
    ∧ (∀ c limit offset, ("country", CouchbaseClient.QueryParam.strOpt c)
        ∈ get_airlines_list_params c limit offset) := by
  have htruth : ∀ v : String, v ≠ "" → pyTruthy (some v) = true := by
    intro v hv
    have he : v.isEmpty = false := by
      rw [Bool.eq_false_iff]
      simpa [String.isEmpty_iff] using hv
    simp [pyTruthy, he]
  refine ⟨?_, ?_, ?_, ?_, ?_⟩
  · intro c
    by_cases hc : pyTruthy c <;> simp [get_airlines_list_query, hc]
  · intro c
    by_cases hc : pyTruthy c <;> simp [get_airports_list_query, hc]
  · intro c1 c2 h
    constructor <;> simp [get_airlines_list_query, get_airports_list_query, h]
  · intro v1 v2 h1 h2
    constructor <;>
      simp [get_airlines_list_query, get_airports_list_query, htruth v1 h1,
        htruth v2 h2]
  · intro c limit offset
    simp [get_airlines_list_params]

/-- Witness for C9: two different non-empty countries give the same query. -/
theorem list_query_static_templates_witness :
    get_airlines_list_query (some "France")
      = get_airlines_list_query (some "United States") :=
  (list_query_static_templates.2.2.2.1 "France" "United States"
    (by decide) (by decide)).1

/-- C10: POST /api/v1/hotel/filter without a JSON body dereferences the
absent body, the AttributeError is caught by the catch-all and the response
is HTTP 500 — whereas an empty filter object yields HTTP 200 with an empty
list. -/
theorem hotel_filter_missing_body_500 (store : SearchBackend)
    (limitParam offsetParam : Option Int) :
    hotel_filter store none limitParam offsetParam
      = { status := 500
          body := .detail ("Unexpected error: " ++ noneTypeModelDumpMsg) }
    ∧ hotel_filter store (some Hotel.emptyFilter) limitParam offsetParam
      = { status := 200, body := .jsonRows [] } := by
  constructor
  · rfl
  · simp [hotel_filter, Hotel.emptyFilter, Hotel.model_dump_exclude_none,
      CouchbaseClient.filter, CouchbaseClient.buildConjuncts,
      CouchbaseClient.match_query_terms, CouchbaseClient.term_query_terms]
